import Mathlib

/-!
Formal model of the deterministic verification and promotion-readiness
gating pipeline of `aurelius-financial-reasoning-infra`, shallowly embedded
from the Python sources:

* `api/services/promotion_readiness.py` — weighted readiness scorecard
* `api/services/parity_config.py` — per-metric parity tolerances
* `api/services/engine_backtest.py` — replay parity status and data-path
  resolution (the subprocess/filesystem effects are abstracted into explicit
  parameters: a `pathExists : String → Bool` oracle and the replay outcome)
* `api/services/gate_verification.py` — dev and CRV gate evaluators
* `api/services/release_gates.py` — maturity classification and release gate

Python `float` values are modelled as `ℚ`; Python `round(x, n)` (banker's
rounding) is modelled exactly on `ℚ` by `pyRound`.  Python dicts with
`.get(k, default)` access are modelled as `Option`-valued fields or as
`String → Option ℚ` maps with explicit defaulting.  Wall-clock fields
(`evaluated_at`) are omitted; every other payload field is carried.
-/

namespace Aurelius

/-- Python `round` to an integer: round-half-to-even (banker's rounding). -/
def pyRoundInt (x : ℚ) : ℤ :=
  let n := ⌊x⌋
  let frac := x - (n : ℚ)
  if frac < 1/2 then n
  else if frac > 1/2 then n + 1
  else if n % 2 = 0 then n else n + 1

/-- Python `round(x, ndigits)` on the exact rational model. -/
def pyRound (ndigits : ℕ) (x : ℚ) : ℚ :=
  (pyRoundInt (x * (10 : ℚ) ^ ndigits) : ℚ) / (10 : ℚ) ^ ndigits

/-- The spec's clamp of a value to the interval [0, 100]. -/
def clamp01 (x : ℚ) : ℚ := max 0 (min 100 x)

/-! ## `services/promotion_readiness.py` -/

/-- `ReadinessSignals` dataclass. -/
structure ReadinessSignals where
  run_identity_present : Bool
  parity_checked : Bool
  parity_passed : Bool
  validation_passed : Bool
  crv_available : Bool
  risk_metrics_complete : Bool
  policy_block_reasons : List String
  lineage_complete : Bool
  startup_status : String
  startup_reasons : List String
  evidence_stale : Bool
  environment_caveat : Option String
  evidence_classification : Option String
  evidence_timestamp : Option String
  contract_mismatch : Bool
  maturity_label_visible : Bool
deriving Repr

/-- The five component scores keyed `D`, `R`, `P`, `O`, `U`. -/
structure Components where
  D : ℚ
  R : ℚ
  P : ℚ
  O : ℚ
  U : ℚ
deriving Repr, DecidableEq

/-- `DEFAULT_WEIGHTS`-shaped weight map (a total map over the five keys). -/
structure Weights where
  D : ℚ
  R : ℚ
  P : ℚ
  O : ℚ
  U : ℚ
deriving Repr, DecidableEq

/-- `DEFAULT_THRESHOLDS`-shaped threshold map (integers in the source). -/
structure Thresholds where
  green : ℤ
  amber : ℤ
deriving Repr, DecidableEq

def DEFAULT_WEIGHTS : Weights := { D := 1/4, R := 1/5, P := 1/4, O := 3/20, U := 3/20 }

def DEFAULT_THRESHOLDS : Thresholds := { green := 85, amber := 70 }

def SCORECARD_VERSION : String := "v1"

/-- `BLOCKER_ACTIONS` lookup table. -/
def BLOCKER_ACTIONS : List (String × String) :=
  [("missing_run_identity", "Run a completed backtest with persisted run identity metadata."),
   ("parity_check_failed", "Re-run deterministic replay and resolve parity violations before promotion."),
   ("missing_replay_check", "Enable replay parity checks and re-run backtest evidence."),
   ("missing_backtest_metrics", "Run a completed backtest so CRV/product checks have metrics."),
   ("missing_lineage_fields", "Populate required lineage fields in run metadata before promotion."),
   ("policy_block_reasons", "Resolve policy/governance block reasons before promotion."),
   ("validation_not_completed", "Complete walk-forward validation and persist status before promotion."),
   ("crv_unavailable", "Run CRV gate on completed metrics and resolve threshold failures."),
   ("ops_degraded", "Fix dependency/startup health degradations and re-check service health."),
   ("evidence_stale", "Refresh acceptance evidence in a known-good environment."),
   ("contract_invalid_gate_path", "Fix gate endpoint contract/runtime errors and rerun acceptance evidence."),
   ("ui_contract_mismatch", "Align API and dashboard readiness contract before using decision output.")]

/-- `_clamp_score(value, field, warnings)`: clamp to [0,100], appending a
warning to the threaded warnings list when clamping happens. -/
def clampScore (value : ℚ) (field : String) (warnings : List String) : ℚ × List String :=
  if value < 0 then (0, warnings ++ [field ++ "_below_zero_clamped"])
  else if value > 100 then (100, warnings ++ [field ++ "_above_hundred_clamped"])
  else (value, warnings)

/-- `_decision_band(score, thresholds)`. -/
def decisionBand (score : ℚ) (thresholds : Thresholds) : String :=
  if score ≥ (thresholds.green : ℚ) then "Green"
  else if score ≥ (thresholds.amber : ℚ) then "Amber"
  else "Red"

/-- The `d` block of `_compute_component_scores` before clamping. -/
def dRaw (s : ReadinessSignals) : ℚ :=
  let d : ℚ := 100
  let d := if s.parity_checked = false then d - 40 else d
  let d := if s.run_identity_present = false then d - 30 else d
  if s.parity_passed = false then d - 30 else d

/-- The `r` block of `_compute_component_scores` before clamping. -/
def rRaw (s : ReadinessSignals) : ℚ :=
  let r : ℚ := 100
  let r := if s.validation_passed = false then r - 50 else r
  let r := if s.crv_available = false then r - 25 else r
  if s.risk_metrics_complete = false then r - 25 else r

/-- The `p` block of `_compute_component_scores` before clamping. -/
def pRaw (s : ReadinessSignals) : ℚ :=
  let p : ℚ := 100
  let p := if s.policy_block_reasons ≠ [] then p - 60 else p
  if s.lineage_complete = false then p - 40 else p

/-- The `o` block of `_compute_component_scores` before clamping. -/
def oRaw (s : ReadinessSignals) : ℚ :=
  let o : ℚ := 100
  let o := if s.startup_status ≠ "healthy" then o - 40 else o
  let o := if s.evidence_stale = true then o - 30 else o
  if s.startup_reasons.length ≥ 2 then o - 30 else o

/-- The `u` block of `_compute_component_scores` before clamping. -/
def uRaw (s : ReadinessSignals) : ℚ :=
  let u : ℚ := 100
  let u := if s.contract_mismatch = true then u - 60 else u
  if s.maturity_label_visible = false then u - 40 else u

/-- `_compute_component_scores(signals, warnings)`: the five component scores,
each clamped via `_clamp_score` with the warnings list threaded through in
dict-literal order D, R, P, O, U. -/
def computeComponentScores (s : ReadinessSignals) (warnings : List String) :
    Components × List String :=
  let dc := clampScore (dRaw s) "D" warnings
  let rc := clampScore (rRaw s) "R" dc.2
  let pc := clampScore (pRaw s) "P" rc.2
  let oc := clampScore (oRaw s) "O" pc.2
  let uc := clampScore (uRaw s) "U" oc.2
  ({ D := dc.1, R := rc.1, P := pc.1, O := oc.1, U := uc.1 }, uc.2)

/-- `_collect_hard_blockers(signals)`. -/
def collectHardBlockers (s : ReadinessSignals) : List String :=
  (if s.run_identity_present = false then ["missing_run_identity"] else []) ++
  (if s.parity_checked = false then ["missing_replay_check"] else []) ++
  (if s.parity_passed = false then ["parity_check_failed"] else []) ++
  (if s.lineage_complete = false then ["missing_lineage_fields"] else []) ++
  (if s.policy_block_reasons ≠ [] then ["policy_block_reasons"] else [])

/-- First-occurrence deduplication, as the Python loop in `_top_blockers`. -/
def dedupFirst (l : List String) : List String :=
  l.foldl (fun acc x => if x ∈ acc then acc else acc ++ [x]) []

/-- `_top_blockers(hard_blockers, components, signals)`. -/
def topBlockers (hard_blockers : List String) (components : Components)
    (s : ReadinessSignals) : List String :=
  if hard_blockers ≠ [] then hard_blockers.take 3
  else
    let blockers :=
      (if components.R < 80 ∧ s.validation_passed = false then ["validation_not_completed"] else []) ++
      (if components.R < 80 ∧ s.crv_available = false then ["crv_unavailable"] else []) ++
      (if components.O < 80 ∧ s.startup_status ≠ "healthy" then ["ops_degraded"] else []) ++
      (if components.O < 80 ∧ s.evidence_stale = true then ["evidence_stale"] else []) ++
      (if s.environment_caveat = some "contract_invalid_gate_path" then ["contract_invalid_gate_path"] else []) ++
      (if components.U < 80 ∧ s.contract_mismatch = true then ["ui_contract_mismatch"] else [])
    if blockers = [] then ["monitor_inputs"]
    else (dedupFirst blockers).take 3

/-- `_next_actions(blockers)`. -/
def nextActions (blockers : List String) : List String :=
  let actions := blockers.foldl
    (fun acc blocker =>
      match BLOCKER_ACTIONS.lookup blocker with
      | some action => if action ∈ acc then acc else acc ++ [action]
      | none => acc) []
  let actions :=
    if actions = [] then actions ++ ["No immediate blockers. Continue monitoring readiness metrics."]
    else actions
  actions.take 3

/-- `_component_delta(current, previous)`: all-zero when there is no previous
components dict, otherwise the per-key rounded difference. -/
def componentDelta (current : Components) (previous : Option Components) : Components :=
  match previous with
  | none => { D := 0, R := 0, P := 0, O := 0, U := 0 }
  | some p =>
      { D := pyRound 3 (current.D - p.D)
        R := pyRound 3 (current.R - p.R)
        P := pyRound 3 (current.P - p.P)
        O := pyRound 3 (current.O - p.O)
        U := pyRound 3 (current.U - p.U) }

/-- `_changed_components(delta)`: keys whose absolute delta is ≥ 0.001, in
dict order D, R, P, O, U. -/
def changedComponents (delta : Components) : List String :=
  (if (1 : ℚ)/1000 ≤ |delta.D| then ["D"] else []) ++
  (if (1 : ℚ)/1000 ≤ |delta.R| then ["R"] else []) ++
  (if (1 : ℚ)/1000 ≤ |delta.P| then ["P"] else []) ++
  (if (1 : ℚ)/1000 ≤ |delta.O| then ["O"] else []) ++
  (if (1 : ℚ)/1000 ≤ |delta.U| then ["U"] else [])

/-- The caller-supplied previous scorecard: only its `components` dict and
`score` entry are read by `build_readiness_payload` (each may be absent or of
the wrong type, modelled as `none`). -/
structure PreviousScorecard where
  components : Option Components
  score : Option ℚ
deriving Repr

/-- The `transition` sub-dict of the readiness payload. -/
structure Transition where
  previous_score : Option ℚ
  score_delta : Option ℚ
  component_delta : Components
  changed_components : List String
deriving Repr, DecidableEq

/-- The `kpi_events` sub-dict of the readiness payload. -/
structure KpiEvents where
  decision_latency_ms : Option ℚ
  false_promotion_proxy : ℕ
  reproducibility_pass : ℕ
  onboarding_reliability : ℕ
deriving Repr, DecidableEq

/-- The `operational_context` sub-dict of the readiness payload (an echo of
the input signals). -/
structure OperationalContext where
  startup_status : String
  startup_reasons : List String
  evidence_stale : Bool
  environment_caveat : Option String
  evidence_classification : Option String
  evidence_timestamp : Option String
  contract_mismatch : Bool
  maturity_label_visible : Bool
deriving Repr, DecidableEq

/-- The dict returned by `build_readiness_payload` (minus the wall-clock
`evaluated_at` field). -/
structure ReadinessPayload where
  strategy_id : String
  scorecard_version : String
  weights : Weights
  thresholds : Thresholds
  components : Components
  score : ℚ
  band : String
  blocked : Bool
  hard_blockers : List String
  top_blockers : List String
  next_actions : List String
  warnings : List String
  maturity_label : String
  transition : Transition
  operational_context : OperationalContext
  kpi_events : KpiEvents
deriving Repr

/-- `build_readiness_payload(strategy_id, signals, previous_scorecard,
weights, thresholds)`. -/
def buildReadinessPayload (strategy_id : String) (signals : ReadinessSignals)
    (previous_scorecard : Option PreviousScorecard)
    (weights? : Option Weights) (thresholds? : Option Thresholds) : ReadinessPayload :=
  let warnings0 : List String := []
  let weights := weights?.getD DEFAULT_WEIGHTS
  let thresholds := thresholds?.getD DEFAULT_THRESHOLDS
  let cw := computeComponentScores signals warnings0
  let components := cw.1
  let rawScore := weights.D * components.D + weights.R * components.R +
    weights.P * components.P + weights.O * components.O + weights.U * components.U
  let sw := clampScore rawScore "S" cw.2
  let score := pyRound 3 sw.1
  let hard_blockers := collectHardBlockers signals
  let band := decisionBand score thresholds
  let blocked : Bool := decide (0 < hard_blockers.length)
  let final_band := if blocked then "Red" else band
  let top_blockers := topBlockers hard_blockers components signals
  let actions := nextActions top_blockers
  let previous_components := previous_scorecard.bind (fun p => p.components)
  let previous_score := previous_scorecard.bind (fun p => p.score)
  let delta := componentDelta components previous_components
  let changed := changedComponents delta
  let kpi_events : KpiEvents :=
    { decision_latency_ms := none
      false_promotion_proxy :=
        if blocked = true ∧ score ≥ (thresholds.green : ℚ) then 1 else 0
      reproducibility_pass :=
        if signals.parity_checked = true ∧ signals.parity_passed = true ∧
           signals.run_identity_present = true then 1 else 0
      onboarding_reliability := if signals.startup_status = "healthy" then 1 else 0 }
  { strategy_id := strategy_id
    scorecard_version := SCORECARD_VERSION
    weights := weights
    thresholds := thresholds
    components := components
    score := score
    band := final_band
    blocked := blocked
    hard_blockers := hard_blockers
    top_blockers := top_blockers
    next_actions := actions
    warnings := sw.2
    maturity_label :=
      if final_band = "Green" ∨ final_band = "Amber" then "validated" else "experimental"
    transition :=
      { previous_score := previous_score
        score_delta :=
          match previous_score with
          | some p => some (pyRound 3 (score - p))
          | none => none
        component_delta := delta
        changed_components := changed }
    operational_context :=
      { startup_status := signals.startup_status
        startup_reasons := signals.startup_reasons
        evidence_stale := signals.evidence_stale
        environment_caveat := signals.environment_caveat
        evidence_classification := signals.evidence_classification
        evidence_timestamp := signals.evidence_timestamp
        contract_mismatch := signals.contract_mismatch
        maturity_label_visible := signals.maturity_label_visible }
    kpi_events := kpi_events }

/-! ## `services/parity_config.py` -/

/-- `PARITY_TOLERANCES`: per-metric absolute-difference tolerances. -/
def PARITY_TOLERANCES : List (String × ℚ) :=
  [("total_return", 1/100), ("sharpe_ratio", 1/100), ("max_drawdown", 1/100)]

/-- `metric_within_tolerance(metric, lhs, rhs)`: the tolerance is looked up
in `PARITY_TOLERANCES` with default 0.0. -/
def metricWithinTolerance (metric : String) (lhs rhs : ℚ) : Bool :=
  let tolerance := (PARITY_TOLERANCES.lookup metric).getD 0
  decide (|lhs - rhs| ≤ tolerance)

/-! ## `services/engine_backtest.py` -/

/-- A normalized metrics dict viewed as a partial map from metric name to
value, with Python's `a.get(k, 0.0)` modelled by `(a k).getD 0`. -/
def MetricMap : Type := String → Option ℚ

/-- One entry of a parity `violations` dict: either a metric-delta record
`{a, b, delta, tolerance}` or a plain string note (the `"engine":
"replay_failed"` entry). -/
inductive ViolationEntry where
  | metricDelta (a b delta tolerance : ℚ)
  | note (s : String)
deriving Repr, DecidableEq

/-- `_within_tolerance(a, b)`: iterate the tracked metrics in
`PARITY_TOLERANCES` order, collecting a violation entry for each metric not
within tolerance; passes iff no violations. -/
def withinTolerance (a b : MetricMap) : Bool × List (String × ViolationEntry) :=
  let violations := PARITY_TOLERANCES.foldl
    (fun acc kt =>
      let av := (a kt.1).getD 0
      let bv := (b kt.1).getD 0
      let delta := |av - bv|
      if metricWithinTolerance kt.1 av bv = false then
        acc ++ [(kt.1, ViolationEntry.metricDelta av bv delta kt.2)]
      else acc) []
  (violations.length == 0, violations)

/-- The `parity_check` status dict attached to metrics by
`run_engine_backtest`. -/
structure ParityStatus where
  checked : Bool
  passed : Bool
  violations : List (String × ViolationEntry)
deriving Repr, DecidableEq

/-- The replay block of `run_engine_backtest`: with `run_replay_check=False`
the status is `{checked: false, passed: true, violations: {}}`; otherwise the
replay subprocess outcome (`replay_ok` = return code 0 and stats present)
decides between a tolerance comparison of the primary and replay metrics and
the `replay_failed` failure record. -/
def computeReplayStatus (run_replay_check : Bool) (replay_ok : Bool)
    (metrics replay_metrics : MetricMap) : ParityStatus :=
  if run_replay_check then
    if replay_ok then
      let c := withinTolerance metrics replay_metrics
      { checked := true, passed := c.1, violations := c.2 }
    else
      { checked := true, passed := false,
        violations := [("engine", ViolationEntry.note "replay_failed")] }
  else
    { checked := false, passed := true, violations := [] }

/-- The `replay_pass` field attached to metrics by `run_engine_backtest`:
`bool(replay_status.get("passed", False))`. -/
def replayPassOf (status : ParityStatus) : Bool := status.passed

/-- Python `str.strip()` (whitespace from both ends), modelled on the
character list. -/
def pyStrip (s : String) : String :=
  ⟨(((s.data.dropWhile Char.isWhitespace).reverse.dropWhile Char.isWhitespace).reverse)⟩

/-- Python `str.lower()` modelled on the character list (ASCII lowering, as
used on the `"default"` sentinel). -/
def pyLower (s : String) : String := ⟨s.data.map Char.toLower⟩

/-- The fall-through of `_default_data_path`: the `BACKTEST_DATA_PATH`
environment value when set and non-empty, else the default example dataset
under the repository root. -/
def fallbackDataPath (env_backtest_data_path : Option String) (repo_root : String) : String :=
  match env_backtest_data_path with
  | some configured =>
      if configured ≠ "" then configured
      else repo_root ++ "/examples/alpaca_data.parquet"
  | none => repo_root ++ "/examples/alpaca_data.parquet"

/-- `_default_data_path(data_source)` with the filesystem and environment
made explicit: `pathExists` is the `Path.exists()` oracle,
`env_backtest_data_path` is `os.getenv("BACKTEST_DATA_PATH")`, and
`repo_root` is `_repo_root()` rendered as a string. -/
def defaultDataPath (pathExists : String → Bool) (env_backtest_data_path : Option String)
    (repo_root : String) (data_source : Option String) : String :=
  let source := pyStrip (data_source.getD "")
  let fallback := fallbackDataPath env_backtest_data_path repo_root
  if source ≠ "" ∧ pyLower source ≠ "default" then
    if pathExists source then source
    else
      let repo_candidate := repo_root ++ "/data/" ++ source
      if pathExists repo_candidate then repo_candidate
      else fallback
  else fallback

/-- The data-resolution prefix of `run_engine_backtest`: resolve the path via
`_default_data_path` and raise (`Except.error`) only when the resolved path
does not exist. -/
def resolveBacktestData (pathExists : String → Bool) (env_backtest_data_path : Option String)
    (repo_root : String) (data_source : Option String) : Except String String :=
  let data_path := defaultDataPath pathExists env_backtest_data_path repo_root data_source
  if pathExists data_path then Except.ok data_path
  else Except.error ("Backtest data file not found: " ++ data_path)

/-! ## `services/gate_verification.py` -/

/-- The slice of a `backtest_metrics` dict read by the gate evaluators;
absent dict keys are `none` (Python `.get` defaults are applied at use
sites). `run_identity` is kept as its displayed string; Python truthiness of
the value is `some`-and-nonempty. -/
structure GateMetrics where
  run_identity : Option String
  replay_pass : Option Bool
  sharpe_ratio : Option ℚ
  max_drawdown : Option ℚ
  total_return : Option ℚ
deriving Repr

/-- Python truthiness of an optional string value. -/
def truthyStr (v : Option String) : Bool :=
  match v with
  | some s => s ≠ ""
  | none => false

/-- `GateCheck` pydantic model. -/
structure GateCheck where
  check_name : String
  passed : Bool
  description : String
  message : Option String
  severity : String
deriving Repr, DecidableEq

/-- `GateVerifyResponse` pydantic model (the optional `readiness_payload`
field, unused by `verify_dev_gate`/`verify_crv_gate`, is omitted). -/
structure GateVerifyResponse where
  strategy_id : String
  gate_type : String
  passed : Bool
  gate_status : String
  checks : List GateCheck
  score : Option ℚ
  recommendations : List String
deriving Repr, DecidableEq

/-- Python `f"{x:.2f}"` formatting on the exact rational model
(round-half-to-even to two decimals, then render). -/
def pyFormat2 (x : ℚ) : String :=
  let scaled := pyRoundInt (x * 100)
  let sign := if scaled < 0 then "-" else ""
  let n := scaled.natAbs
  let fp := n % 100
  let fps := if fp < 10 then "0" ++ toString fp else toString fp
  sign ++ toString (n / 100) ++ "." ++ fps

/-- `GateVerificationService.DEFAULT_THRESHOLDS` for the CRV gate. -/
structure CrvThresholds where
  min_sharpe : ℚ
  max_drawdown : ℚ
  min_return : ℚ
deriving Repr, DecidableEq

def CRV_DEFAULT_THRESHOLDS : CrvThresholds :=
  { min_sharpe := 1, max_drawdown := 1/5, min_return := 1/10 }

/-- A caller-supplied thresholds dict: each key independently present or
absent. -/
structure CrvThresholdOverrides where
  min_sharpe : Option ℚ
  max_drawdown : Option ℚ
  min_return : Option ℚ
deriving Repr

/-- The `{**DEFAULT_THRESHOLDS, **(thresholds or {})}` merge. -/
def mergeCrvThresholds (overrides : Option CrvThresholdOverrides) : CrvThresholds :=
  match overrides with
  | none => CRV_DEFAULT_THRESHOLDS
  | some o =>
      { min_sharpe := o.min_sharpe.getD CRV_DEFAULT_THRESHOLDS.min_sharpe
        max_drawdown := o.max_drawdown.getD CRV_DEFAULT_THRESHOLDS.max_drawdown
        min_return := o.min_return.getD CRV_DEFAULT_THRESHOLDS.min_return }

/-- Gate score: `(passed_count / total) * 100` rounded to 1 decimal, `0` for
an empty check list. -/
def gateScore (checks : List GateCheck) : ℚ :=
  if checks.length = 0 then 0
  else pyRound 1 (((checks.countP (fun c => c.passed)) : ℚ) / (checks.length : ℚ) * 100)

/-- `GateVerificationService.verify_dev_gate(strategy_id, backtest_metrics,
strategy_exists)`. -/
def verifyDevGate (strategy_id : String) (backtest_metrics : Option GateMetrics)
    (strategy_exists : Bool) : GateVerifyResponse :=
  let has_backtest := backtest_metrics.isSome
  let run_identity := backtest_metrics.bind (fun m => m.run_identity)
  let replay_pass :=
    match backtest_metrics with
    | some m => m.replay_pass.getD false
    | none => false
  let checks : List GateCheck :=
    [{ check_name := "Strategy Exists", passed := strategy_exists,
       description := "Strategy artifact must exist",
       message := some ("strategy_id=" ++ strategy_id), severity := "error" },
     { check_name := "Completed Backtest", passed := has_backtest,
       description := "Completed backtest artifact is required",
       message := some (if has_backtest then "backtest available" else "missing backtest"),
       severity := "error" },
     { check_name := "Run Identity Present", passed := truthyStr run_identity,
       description := "Canonical run identity must be persisted",
       message := some (if truthyStr run_identity then run_identity.getD "" else "missing run_identity"),
       severity := "error" },
     { check_name := "Replay Determinism", passed := replay_pass,
       description := "Strategy produces consistent results",
       message := some (if replay_pass then "Replay parity passed" else "Replay parity failed or missing"),
       severity := "error" }]
  let passed := checks.all (fun c => c.passed)
  let gate_status := if passed then "passed" else "failed"
  let recommendations :=
    if passed = false then
      (checks.filter (fun c => c.passed = false)).map
        (fun c => "Fix: " ++ c.check_name ++ " - " ++ c.description)
    else []
  { strategy_id := strategy_id, gate_type := "dev", passed := passed,
    gate_status := gate_status, checks := checks, score := some (gateScore checks),
    recommendations := recommendations }

/-- `GateVerificationService.verify_crv_gate(strategy_id, backtest_metrics,
thresholds)`. -/
def verifyCrvGate (strategy_id : String) (backtest_metrics : Option GateMetrics)
    (thresholds : Option CrvThresholdOverrides) : GateVerifyResponse :=
  let thresh := mergeCrvThresholds thresholds
  match backtest_metrics with
  | none =>
      { strategy_id := strategy_id, gate_type := "crv", passed := false,
        gate_status := "blocked",
        checks := [{ check_name := "Backtest Metrics Available", passed := false,
                     description := "Risk metrics required for CRV gate",
                     message := some "missing backtest metrics", severity := "error" }],
        score := some 0,
        recommendations := ["Complete backtest to obtain risk metrics"] }
  | some m =>
      let sharpe_ratio := m.sharpe_ratio.getD 0
      let max_drawdown := m.max_drawdown.getD 1
      let total_return := m.total_return.getD 0
      let sharpe_pass : Bool := decide (sharpe_ratio ≥ thresh.min_sharpe)
      let drawdown_pass : Bool := decide (max_drawdown ≤ thresh.max_drawdown)
      let return_pass : Bool := decide (total_return ≥ thresh.min_return)
      let checks : List GateCheck :=
        [{ check_name := "Sharpe Ratio", passed := sharpe_pass,
           description := "Sharpe ratio must be >= " ++ toString thresh.min_sharpe,
           message := some ("actual: " ++ pyFormat2 sharpe_ratio), severity := "error" },
         { check_name := "Max Drawdown", passed := drawdown_pass,
           description := "Max drawdown must be <= " ++ toString thresh.max_drawdown,
           message := some ("actual: " ++ pyFormat2 max_drawdown), severity := "error" },
         { check_name := "Total Return", passed := return_pass,
           description := "Total return must be >= " ++ toString thresh.min_return,
           message := some ("actual: " ++ pyFormat2 total_return), severity := "error" }]
      let passed := checks.all (fun c => c.passed)
      let gate_status := if passed then "passed" else "failed"
      let recommendations :=
        (if sharpe_pass = false then
          ["Improve Sharpe ratio from " ++ pyFormat2 sharpe_ratio ++ " to " ++ toString thresh.min_sharpe]
         else []) ++
        (if drawdown_pass = false then
          ["Reduce max drawdown from " ++ pyFormat2 max_drawdown ++ " to " ++ toString thresh.max_drawdown]
         else []) ++
        (if return_pass = false then
          ["Increase total return from " ++ pyFormat2 total_return ++ " to " ++ toString thresh.min_return]
         else [])
      { strategy_id := strategy_id, gate_type := "crv", passed := passed,
        gate_status := gate_status, checks := checks, score := some (gateScore checks),
        recommendations := recommendations }

/-! ## `services/release_gates.py` -/

/-- The boolean evidence map over the four capability keys. -/
structure ReleaseEvidence where
  truth_parity : Bool
  determinism : Bool
  contract_parity : Bool
  lineage_completeness : Bool
deriving Repr, DecidableEq

/-- `CAPABILITY_THRESHOLDS["production"]` as an ordered key/required list. -/
def CAPABILITY_PRODUCTION : List (String × Bool) :=
  [("truth_parity", true), ("determinism", true),
   ("contract_parity", true), ("lineage_completeness", true)]

/-- `bool(evidence.get(k))` over the four known keys (any other key is
absent, hence falsy). -/
def evidenceGet (e : ReleaseEvidence) (k : String) : Bool :=
  if k = "truth_parity" then e.truth_parity
  else if k = "determinism" then e.determinism
  else if k = "contract_parity" then e.contract_parity
  else if k = "lineage_completeness" then e.lineage_completeness
  else false

/-- `determine_maturity(evidence)`. -/
def determineMaturity (e : ReleaseEvidence) : String :=
  if CAPABILITY_PRODUCTION.all (fun kv => evidenceGet e kv.1 == kv.2) then "production"
  else if e.truth_parity && e.determinism && e.lineage_completeness then "validated"
  else "experimental"

/-- `evaluate_release_gate(evidence)` returning `(passed, block_reasons,
maturity_label)`. -/
def evaluateReleaseGate (e : ReleaseEvidence) : Bool × List String × String :=
  let reasons := CAPABILITY_PRODUCTION.foldl
    (fun acc kv =>
      if kv.2 = true ∧ evidenceGet e kv.1 = false then acc ++ [kv.1 ++ "_failed"]
      else acc) []
  let maturity := determineMaturity e
  let passed := reasons.length == 0
  (passed, reasons, maturity)

/-! ## Spec-side formulas

These definitions transcribe the formulas as the specification words them
(component penalties, weighted sum, clamping); the theorems compare them
with the code-side computation above. -/

/-- Spec formula for component `D`: start at 100, −40 if parity not checked,
−30 if run identity absent, −30 if parity not passed, clamped to [0,100]. -/
def specComponentD (s : ReadinessSignals) : ℚ :=
  clamp01 (100 - (if s.parity_checked then 0 else 40)
    - (if s.run_identity_present then 0 else 30)
    - (if s.parity_passed then 0 else 30))

/-- Spec formula for component `R`. -/
def specComponentR (s : ReadinessSignals) : ℚ :=
  clamp01 (100 - (if s.validation_passed then 0 else 50)
    - (if s.crv_available then 0 else 25)
    - (if s.risk_metrics_complete then 0 else 25))

/-- Spec formula for component `P`. -/
def specComponentP (s : ReadinessSignals) : ℚ :=
  clamp01 (100 - (if s.policy_block_reasons = [] then 0 else 60)
    - (if s.lineage_complete then 0 else 40))

/-- Spec formula for component `O`. -/
def specComponentO (s : ReadinessSignals) : ℚ :=
  clamp01 (100 - (if s.startup_status = "healthy" then 0 else 40)
    - (if s.evidence_stale then 30 else 0)
    - (if 2 ≤ s.startup_reasons.length then 30 else 0))

/-- Spec formula for component `U`. -/
def specComponentU (s : ReadinessSignals) : ℚ :=
  clamp01 (100 - (if s.contract_mismatch then 60 else 0)
    - (if s.maturity_label_visible then 0 else 40))

/-- Spec formula for the raw weighted score Σ weight[k]·component[k]. -/
def specRawScore (w : Weights) (s : ReadinessSignals) : ℚ :=
  w.D * specComponentD s + w.R * specComponentR s + w.P * specComponentP s +
  w.O * specComponentO s + w.U * specComponentU s

/-! ## Concrete inputs used by witnesses and counterexamples -/

/-- Signals that are healthy in every dimension. -/
def healthySignals : ReadinessSignals :=
  { run_identity_present := true, parity_checked := true, parity_passed := true,
    validation_passed := true, crv_available := true, risk_metrics_complete := true,
    policy_block_reasons := [], lineage_complete := true, startup_status := "healthy",
    startup_reasons := [], evidence_stale := false, environment_caveat := none,
    evidence_classification := none, evidence_timestamp := none,
    contract_mismatch := false, maturity_label_visible := true }

/-- Healthy signals except for a missing run identity (one hard blocker,
every other component score 100). -/
def missingIdentitySignals : ReadinessSignals :=
  { healthySignals with run_identity_present := false }

/-- A weights override whose values sum to 5, not 1. -/
def badWeights : Weights := { D := 1, R := 1, P := 1, O := 1, U := 1 }

/-- A filesystem oracle on which only the default example dataset exists. -/
def onlyDefaultDatasetFS : String → Bool :=
  fun s => s == "/repo/examples/alpaca_data.parquet"

/-- Metrics as produced by `run_engine_backtest` with
`run_replay_check=False`: `replay_pass` is the `passed` field of the skipped
parity status. -/
def skippedReplayMetrics : GateMetrics :=
  { run_identity := some "abc123"
    replay_pass := some (computeReplayStatus false true (fun _ => none) (fun _ => none)).passed
    sharpe_ratio := none, max_drawdown := none, total_return := none }

/-! ## Helper lemmas -/

theorem clampScore_fst (v : ℚ) (f : String) (w : List String) :
    (clampScore v f w).1 = clamp01 v := by
  unfold clampScore clamp01
  split_ifs with h1 h2
  · rw [min_eq_right (by linarith : v ≤ (100:ℚ)), max_eq_left (by linarith : v ≤ (0:ℚ))]
  · rw [min_eq_left (by linarith : (100:ℚ) ≤ v), max_eq_right (by norm_num : (0:ℚ) ≤ 100)]
  · rw [min_eq_right (by linarith : v ≤ (100:ℚ)), max_eq_right (by linarith : (0:ℚ) ≤ v)]

theorem clampScore_snd (v : ℚ) (f : String) (w : List String) :
    (clampScore v f w).2 = w ++
      (if v < 0 then [f ++ "_below_zero_clamped"]
       else if v > 100 then [f ++ "_above_hundred_clamped"] else []) := by
  unfold clampScore
  split_ifs <;> simp

theorem clampScore_of_range (v : ℚ) (h0 : 0 ≤ v) (h1 : v ≤ 100)
    (f : String) (w : List String) : clampScore v f w = (v, w) := by
  unfold clampScore
  rw [if_neg (not_lt.mpr h0), if_neg (not_lt.mpr h1)]

theorem clamp01_of_range (v : ℚ) (h0 : 0 ≤ v) (h1 : v ≤ 100) : clamp01 v = v := by
  unfold clamp01
  rw [min_eq_right h1, max_eq_right h0]

theorem dRaw_range (s : ReadinessSignals) : 0 ≤ dRaw s ∧ dRaw s ≤ 100 := by
  unfold dRaw
  split_ifs <;> norm_num

theorem rRaw_range (s : ReadinessSignals) : 0 ≤ rRaw s ∧ rRaw s ≤ 100 := by
  unfold rRaw
  split_ifs <;> norm_num

theorem pRaw_range (s : ReadinessSignals) : 0 ≤ pRaw s ∧ pRaw s ≤ 100 := by
  unfold pRaw
  split_ifs <;> norm_num

theorem oRaw_range (s : ReadinessSignals) : 0 ≤ oRaw s ∧ oRaw s ≤ 100 := by
  unfold oRaw
  split_ifs <;> norm_num

theorem uRaw_range (s : ReadinessSignals) : 0 ≤ uRaw s ∧ uRaw s ≤ 100 := by
  unfold uRaw
  split_ifs <;> norm_num

theorem computeComponentScores_eq (s : ReadinessSignals) (w : List String) :
    computeComponentScores s w =
      ({ D := dRaw s, R := rRaw s, P := pRaw s, O := oRaw s, U := uRaw s }, w) := by
  simp only [computeComponentScores,
    clampScore_of_range _ (dRaw_range s).1 (dRaw_range s).2,
    clampScore_of_range _ (rRaw_range s).1 (rRaw_range s).2,
    clampScore_of_range _ (pRaw_range s).1 (pRaw_range s).2,
    clampScore_of_range _ (oRaw_range s).1 (oRaw_range s).2,
    clampScore_of_range _ (uRaw_range s).1 (uRaw_range s).2]

theorem specComponentD_eq (s : ReadinessSignals) : specComponentD s = dRaw s := by
  unfold specComponentD dRaw
  rw [clamp01_of_range]
  · cases hpc : s.parity_checked <;> cases hri : s.run_identity_present <;>
      cases hpp : s.parity_passed <;> simp [hpc, hri, hpp] <;> norm_num
  · cases hpc : s.parity_checked <;> cases hri : s.run_identity_present <;>
      cases hpp : s.parity_passed <;> simp [hpc, hri, hpp] <;> norm_num
  · cases hpc : s.parity_checked <;> cases hri : s.run_identity_present <;>
      cases hpp : s.parity_passed <;> simp [hpc, hri, hpp] <;> norm_num

theorem specComponentR_eq (s : ReadinessSignals) : specComponentR s = rRaw s := by
  unfold specComponentR rRaw
  rw [clamp01_of_range]
  · cases hv : s.validation_passed <;> cases hc : s.crv_available <;>
      cases hr : s.risk_metrics_complete <;> simp [hv, hc, hr] <;> norm_num
  · cases hv : s.validation_passed <;> cases hc : s.crv_available <;>
      cases hr : s.risk_metrics_complete <;> simp [hv, hc, hr] <;> norm_num
  · cases hv : s.validation_passed <;> cases hc : s.crv_available <;>
      cases hr : s.risk_metrics_complete <;> simp [hv, hc, hr] <;> norm_num

theorem specComponentP_eq (s : ReadinessSignals) : specComponentP s = pRaw s := by
  unfold specComponentP pRaw
  rw [clamp01_of_range]
  · by_cases hb : s.policy_block_reasons = [] <;> cases hl : s.lineage_complete <;>
      simp [hb, hl] <;> norm_num
  · by_cases hb : s.policy_block_reasons = [] <;> cases hl : s.lineage_complete <;>
      simp [hb, hl] <;> norm_num
  · by_cases hb : s.policy_block_reasons = [] <;> cases hl : s.lineage_complete <;>
      simp [hb, hl] <;> norm_num

theorem specComponentO_eq (s : ReadinessSignals) : specComponentO s = oRaw s := by
  unfold specComponentO oRaw
  rw [clamp01_of_range]
  · by_cases hs : s.startup_status = "healthy" <;> cases he : s.evidence_stale <;>
      by_cases hn : 2 ≤ s.startup_reasons.length <;> simp [hs, he, hn] <;> norm_num
  · by_cases hs : s.startup_status = "healthy" <;> cases he : s.evidence_stale <;>
      by_cases hn : 2 ≤ s.startup_reasons.length <;> simp [hs, he, hn] <;> norm_num
  · by_cases hs : s.startup_status = "healthy" <;> cases he : s.evidence_stale <;>
      by_cases hn : 2 ≤ s.startup_reasons.length <;> simp [hs, he, hn] <;> norm_num

theorem specComponentU_eq (s : ReadinessSignals) : specComponentU s = uRaw s := by
  unfold specComponentU uRaw
  rw [clamp01_of_range]
  · cases hc : s.contract_mismatch <;> cases hm : s.maturity_label_visible <;>
      simp [hc, hm] <;> norm_num
  · cases hc : s.contract_mismatch <;> cases hm : s.maturity_label_visible <;>
      simp [hc, hm] <;> norm_num
  · cases hc : s.contract_mismatch <;> cases hm : s.maturity_label_visible <;>
      simp [hc, hm] <;> norm_num

/-! ## Claim theorems -/

/-- C8: `verify_crv_gate` with no backtest metrics returns exactly one check
named "Backtest Metrics Available" with `passed = false`, `gate_status =
"blocked"`, `score = 0.0`, and the single recommendation "Complete backtest
to obtain risk metrics", independent of the thresholds and with no
exception (the function is total and its blocked result does not depend on
any threshold comparison). -/
theorem crv_gate_no_metrics_blocked (strategy_id : String)
    (thresholds : Option CrvThresholdOverrides) :
    verifyCrvGate strategy_id none thresholds =
      { strategy_id := strategy_id, gate_type := "crv", passed := false,
        gate_status := "blocked",
        checks := [{ check_name := "Backtest Metrics Available", passed := false,
                     description := "Risk metrics required for CRV gate",
                     message := some "missing backtest metrics", severity := "error" }],
        score := some 0,
        recommendations := ["Complete backtest to obtain risk metrics"] } := rfl

/-- C7: `evaluate_release_gate` returns `block_reasons` listing
`"{key}_failed"` for exactly the production-required keys whose evidence is
false, `passed` true iff `block_reasons` is empty, and the maturity label by
the ordered rules (production iff all four flags, else validated iff
truth_parity ∧ determinism ∧ lineage_completeness, else experimental); in
particular evidence with only `contract_parity` false yields maturity
"validated" with `passed = false`. -/
theorem release_gate_characterization :
    (∀ e : ReleaseEvidence,
      (evaluateReleaseGate e).2.1 =
        (["truth_parity", "determinism", "contract_parity", "lineage_completeness"].filter
          (fun k => !(evidenceGet e k))).map (fun k => k ++ "_failed") ∧
      ((evaluateReleaseGate e).1 = true ↔ (evaluateReleaseGate e).2.1 = []) ∧
      (evaluateReleaseGate e).2.2 =
        (if e.truth_parity = true ∧ e.determinism = true ∧ e.contract_parity = true ∧
            e.lineage_completeness = true then "production"
         else if e.truth_parity = true ∧ e.determinism = true ∧
            e.lineage_completeness = true then "validated"
         else "experimental")) ∧
    evaluateReleaseGate
        { truth_parity := true, determinism := true, contract_parity := false,
          lineage_completeness := true } =
      (false, ["contract_parity_failed"], "validated") := by
  constructor
  · intro e
    obtain ⟨tp, dt, cp, lc⟩ := e
    cases tp <;> cases dt <;> cases cp <;> cases lc <;> decide
  · decide

/-- C3 counterexample: metrics produced with `run_replay_check=False` carry
`parity_check.checked = false` but `replay_pass = true`, so the Dev Gate's
fourth check "Replay Determinism" passes and the whole dev gate passes —
contradicting the claim that such metrics fail that check. -/
theorem skipped_replay_passes_dev_gate :
    (computeReplayStatus false true (fun _ => none) (fun _ => none)).checked = false ∧
    ((verifyDevGate "strategy-1" (some skippedReplayMetrics) true).checks.map
      (fun c => c.passed)) = [true, true, true, true] ∧
    (verifyDevGate "strategy-1" (some skippedReplayMetrics) true).passed = true ∧
    (verifyDevGate "strategy-1" (some skippedReplayMetrics) true).gate_status = "passed" := by
  refine ⟨rfl, rfl, rfl, rfl⟩

/-- C3 amended: the Dev Gate's fourth check "Replay Determinism" passes iff
the metrics' `replay_pass` value (default false) is true — it does not
consult `parity_check.checked` — and `run_engine_backtest` with
`run_replay_check=False` produces `parity_check = {checked: false, passed:
true, violations: {}}`, hence `replay_pass = true`, so such metrics pass the
check. -/
theorem dev_gate_replay_check_uses_replay_pass :
    (∀ (strategy_id : String) (m : GateMetrics) (strategy_exists : Bool),
      ((verifyDevGate strategy_id (some m) strategy_exists).checks.map
        (fun c => c.passed)).get? 3 = some (m.replay_pass.getD false)) ∧
    (∀ (replay_ok : Bool) (a b : MetricMap),
      computeReplayStatus false replay_ok a b =
        { checked := false, passed := true, violations := [] }) :=
  ⟨fun _ _ _ => rfl, fun _ _ _ => rfl⟩

/-- C9 counterexample: with no previous scorecard the transition's
`score_delta` is null (`none`), not 0 — refuting the claim that `score_delta`
equals 0 and that no delta value is null. -/
theorem no_previous_scorecard_null_score_delta :
    (buildReadinessPayload "strategy-1" healthySignals none none none).transition.score_delta
      = none ∧
    (buildReadinessPayload "strategy-1" healthySignals none none none).transition.score_delta
      ≠ some 0 := by
  have h : (buildReadinessPayload "strategy-1" healthySignals none none none).transition.score_delta
      = none := rfl
  exact ⟨h, by rw [h]; simp⟩

/-- C9 amended: with no previous scorecard, `component_delta` maps each of
D/R/P/O/U to 0 and `changed_components` is empty, but `previous_score` and
`score_delta` are null (`none`), not 0; no error is raised (the function is
total). -/
theorem no_previous_scorecard_transition (strategy_id : String) (s : ReadinessSignals)
    (w? : Option Weights) (t? : Option Thresholds) :
    (buildReadinessPayload strategy_id s none w? t?).transition =
      { previous_score := none, score_delta := none,
        component_delta := { D := 0, R := 0, P := 0, O := 0, U := 0 },
        changed_components := [] } := by
  norm_num [buildReadinessPayload, componentDelta, changedComponents]

/-- The payload's maturity label is the Green-or-Amber test applied to the
payload's own band (both are built from the same final band). -/
theorem payload_maturity_eq_band_test (strategy_id : String) (s : ReadinessSignals)
    (prev : Option PreviousScorecard) (w? : Option Weights) (t? : Option Thresholds) :
    (buildReadinessPayload strategy_id s prev w? t?).maturity_label =
      (if (buildReadinessPayload strategy_id s prev w? t?).band = "Green" ∨
          (buildReadinessPayload strategy_id s prev w? t?).band = "Amber"
       then "validated" else "experimental") := rfl

/-- A non-empty hard-blocker list makes the if-condition in the payload's
band computation fire. -/
theorem payload_band_of_blockers (strategy_id : String) (s : ReadinessSignals)
    (prev : Option PreviousScorecard) (w? : Option Weights) (t? : Option Thresholds)
    (h : collectHardBlockers s ≠ []) :
    (buildReadinessPayload strategy_id s prev w? t?).band = "Red" := by
  have hb : decide (0 < (collectHardBlockers s).length) = true :=
    decide_eq_true (List.length_pos.mpr h)
  simp only [buildReadinessPayload, hb, if_true]

/-- C1: whenever the computed hard-blocker list is non-empty, the payload
has `band = "Red"` and `blocked = true`, for every strategy id, previous
scorecard, weight override and threshold override — regardless of the
numeric score. -/
theorem hard_blockers_force_red_band (strategy_id : String) (s : ReadinessSignals)
    (prev : Option PreviousScorecard) (w? : Option Weights) (t? : Option Thresholds)
    (h : collectHardBlockers s ≠ []) :
    (buildReadinessPayload strategy_id s prev w? t?).band = "Red" ∧
    (buildReadinessPayload strategy_id s prev w? t?).blocked = true := by
  have hb : decide (0 < (collectHardBlockers s).length) = true :=
    decide_eq_true (List.length_pos.mpr h)
  constructor
  · simp only [buildReadinessPayload, hb, if_true]
  · simp only [buildReadinessPayload, hb]

/-- C1 witness: with only `run_identity_present = false` the hard-blocker
list is non-empty and the theorem yields `band = "Red"`, `blocked = true`,
even though the weighted score is 92.5, at or above the default green
threshold of 85. -/
theorem hard_blockers_force_red_band_witness :
    collectHardBlockers missingIdentitySignals ≠ [] ∧
    (85 : ℚ) ≤ (buildReadinessPayload "strategy-1" missingIdentitySignals none none none).score ∧
    (buildReadinessPayload "strategy-1" missingIdentitySignals none none none).band = "Red" ∧
    (buildReadinessPayload "strategy-1" missingIdentitySignals none none none).blocked = true := by
  have h : collectHardBlockers missingIdentitySignals ≠ [] := by decide
  have hmain := hard_blockers_force_red_band "strategy-1" missingIdentitySignals none none none h
  refine ⟨h, ?_, hmain.1, hmain.2⟩
  norm_num [buildReadinessPayload, computeComponentScores_eq, dRaw, rRaw, pRaw, oRaw, uRaw,
    DEFAULT_WEIGHTS, missingIdentitySignals, healthySignals, pyRound, pyRoundInt, clampScore]

/-- C10: the payload's maturity label is "validated" exactly when the final
band is Green or Amber and "experimental" otherwise; it is never
"production"; and any hard blocker forces "experimental". -/
theorem maturity_label_from_band (strategy_id : String) (s : ReadinessSignals)
    (prev : Option PreviousScorecard) (w? : Option Weights) (t? : Option Thresholds) :
    ((buildReadinessPayload strategy_id s prev w? t?).maturity_label = "validated" ↔
      ((buildReadinessPayload strategy_id s prev w? t?).band = "Green" ∨
       (buildReadinessPayload strategy_id s prev w? t?).band = "Amber")) ∧
    (buildReadinessPayload strategy_id s prev w? t?).maturity_label ≠ "production" ∧
    (collectHardBlockers s ≠ [] →
      (buildReadinessPayload strategy_id s prev w? t?).maturity_label = "experimental") := by
  have hm := payload_maturity_eq_band_test strategy_id s prev w? t?
  refine ⟨?_, ?_, ?_⟩
  · rw [hm]
    by_cases hc : (buildReadinessPayload strategy_id s prev w? t?).band = "Green" ∨
        (buildReadinessPayload strategy_id s prev w? t?).band = "Amber"
    · simp [hc]
    · simp [hc]
  · rw [hm]
    split_ifs <;> decide
  · intro h
    rw [hm, payload_band_of_blockers strategy_id s prev w? t? h]
    rw [if_neg (by decide)]

/-- C10 witness: a concrete hard-blocked input on which the theorem yields
`maturity_label = "experimental"`. -/
theorem maturity_label_from_band_witness :
    collectHardBlockers missingIdentitySignals ≠ [] ∧
    (buildReadinessPayload "strategy-1" missingIdentitySignals none none none).maturity_label
      = "experimental" := by
  have h : collectHardBlockers missingIdentitySignals ≠ [] := by decide
  exact ⟨h,
    (maturity_label_from_band "strategy-1" missingIdentitySignals none none none).2.2 h⟩

/-- C2: for every signals input and weight/threshold map, the payload's
components equal the spec's penalty formulas (start at 100, fixed
decrements, clamp to [0,100]), the score equals the weighted sum
Σ weight[k]·component[k] clamped to [0,100] and rounded to 3 decimals, and a
clamping warning is recorded exactly when the weighted sum leaves [0,100]. -/
theorem readiness_score_weighted_sum (strategy_id : String) (s : ReadinessSignals)
    (w : Weights) (t : Thresholds) (prev : Option PreviousScorecard) :
    (buildReadinessPayload strategy_id s prev (some w) (some t)).components =
      { D := specComponentD s, R := specComponentR s, P := specComponentP s,
        O := specComponentO s, U := specComponentU s } ∧
    (buildReadinessPayload strategy_id s prev (some w) (some t)).score =
      pyRound 3 (clamp01 (specRawScore w s)) ∧
    (buildReadinessPayload strategy_id s prev (some w) (some t)).warnings =
      (if specRawScore w s < 0 then ["S_below_zero_clamped"]
       else if specRawScore w s > 100 then ["S_above_hundred_clamped"] else []) := by
  have hraw : specRawScore w s =
      w.D * dRaw s + w.R * rRaw s + w.P * pRaw s + w.O * oRaw s + w.U * uRaw s := by
    rw [specRawScore, specComponentD_eq, specComponentR_eq, specComponentP_eq,
      specComponentO_eq, specComponentU_eq]
  have hs1 : "S" ++ "_below_zero_clamped" = "S_below_zero_clamped" := rfl
  have hs2 : "S" ++ "_above_hundred_clamped" = "S_above_hundred_clamped" := rfl
  refine ⟨?_, ?_, ?_⟩
  · simp [buildReadinessPayload, computeComponentScores_eq, specComponentD_eq,
      specComponentR_eq, specComponentP_eq, specComponentO_eq, specComponentU_eq]
  · simp only [buildReadinessPayload, computeComponentScores_eq, clampScore_fst, hraw,
      Option.getD_some]
  · simp only [buildReadinessPayload, computeComponentScores_eq, clampScore_snd, hraw,
      List.nil_append, Option.getD_some, hs1, hs2]

/-- C4 amended: `build_readiness_payload` performs no validation of the
weights — any weight map, whether or not it sums to 1, is echoed in the
payload and the score is computed from it (the weighted sum being clamped to
[0,100]); no error path exists. -/
theorem weights_used_without_validation (strategy_id : String) (s : ReadinessSignals)
    (prev : Option PreviousScorecard) (w : Weights) (t? : Option Thresholds) :
    (buildReadinessPayload strategy_id s prev (some w) t?).weights = w ∧
    (buildReadinessPayload strategy_id s prev (some w) t?).score =
      pyRound 3 (clamp01
        (w.D * (buildReadinessPayload strategy_id s prev (some w) t?).components.D +
         w.R * (buildReadinessPayload strategy_id s prev (some w) t?).components.R +
         w.P * (buildReadinessPayload strategy_id s prev (some w) t?).components.P +
         w.O * (buildReadinessPayload strategy_id s prev (some w) t?).components.O +
         w.U * (buildReadinessPayload strategy_id s prev (some w) t?).components.U)) := by
  constructor
  · simp [buildReadinessPayload]
  · simp only [buildReadinessPayload, computeComponentScores_eq, clampScore_fst,
      Option.getD_some]

/-- C4 counterexample: a weights override summing to 5 (≠ 1) is accepted —
no `ConfigurationError` exists — and a payload is computed from it: the
weights are echoed, the raw weighted sum 500 is silently clamped to 100 with
only a warning, and a band is produced. -/
theorem malformed_weights_accepted :
    badWeights.D + badWeights.R + badWeights.P + badWeights.O + badWeights.U ≠ 1 ∧
    (buildReadinessPayload "strategy-1" healthySignals none (some badWeights) none).weights
      = badWeights ∧
    (buildReadinessPayload "strategy-1" healthySignals none (some badWeights) none).score
      = 100 ∧
    (buildReadinessPayload "strategy-1" healthySignals none (some badWeights) none).warnings
      = ["S_above_hundred_clamped"] ∧
    (buildReadinessPayload "strategy-1" healthySignals none (some badWeights) none).band
      = "Green" := by
  refine ⟨by norm_num [badWeights], by simp [buildReadinessPayload], ?_, ?_, ?_⟩
  · norm_num [buildReadinessPayload, computeComponentScores_eq, dRaw, rRaw, pRaw, oRaw,
      uRaw, badWeights, healthySignals, pyRound, pyRoundInt, clampScore]
  · have hs2 : "S" ++ "_above_hundred_clamped" = "S_above_hundred_clamped" := rfl
    norm_num [buildReadinessPayload, computeComponentScores_eq, dRaw, rRaw, pRaw, oRaw,
      uRaw, badWeights, healthySignals, clampScore, hs2]
  · norm_num [buildReadinessPayload, computeComponentScores_eq, dRaw, rRaw, pRaw, oRaw,
      uRaw, badWeights, healthySignals, collectHardBlockers, decisionBand,
      DEFAULT_THRESHOLDS, pyRound, pyRoundInt, clampScore]

/-- C5 counterexample: with a `data_source` that resolves to no existing
file (neither directly nor under the repo `data/` directory) while the
default example dataset exists, `run_engine_backtest` silently substitutes
the default dataset path and proceeds (`Except.ok`), raising no
DataNotFound-style error. -/
theorem unresolvable_source_silently_defaults :
    onlyDefaultDatasetFS "missing.parquet" = false ∧
    onlyDefaultDatasetFS ("/repo" ++ "/data/" ++ "missing.parquet") = false ∧
    resolveBacktestData onlyDefaultDatasetFS none "/repo" (some "missing.parquet") =
      Except.ok "/repo/examples/alpaca_data.parquet" := by
  refine ⟨by decide, by decide, rfl⟩

/-- C5 amended: when the requested `data_source` does not resolve to an
existing file (neither as a direct path nor under the repo `data/`
directory), `_default_data_path` silently falls back to `BACKTEST_DATA_PATH`
or the default example dataset, and `run_engine_backtest` raises the
"Backtest data file not found" error only when that fallback path itself
does not exist. -/
theorem unresolved_data_source_falls_back (pathExists : String → Bool)
    (env : Option String) (repo_root src : String)
    (h1 : pathExists (pyStrip src) = false)
    (h2 : pathExists (repo_root ++ "/data/" ++ pyStrip src) = false) :
    defaultDataPath pathExists env repo_root (some src) = fallbackDataPath env repo_root ∧
    resolveBacktestData pathExists env repo_root (some src) =
      (if pathExists (fallbackDataPath env repo_root) = true then
        Except.ok (fallbackDataPath env repo_root)
       else Except.error
        ("Backtest data file not found: " ++ fallbackDataPath env repo_root)) := by
  have hd : defaultDataPath pathExists env repo_root (some src) =
      fallbackDataPath env repo_root := by
    unfold defaultDataPath
    simp only [Option.getD_some]
    by_cases hc : pyStrip src ≠ "" ∧ pyLower (pyStrip src) ≠ "default"
    · rw [if_pos hc, if_neg (by simp [h1]), if_neg (by simp [h2])]
    · rw [if_neg hc]
  refine ⟨hd, ?_⟩
  unfold resolveBacktestData
  rw [hd]

/-- C5 amended witness: the fallback behaviour at the concrete input of the
counterexample — the hypotheses hold and the resolution returns the default
dataset path successfully. -/
theorem unresolved_data_source_falls_back_witness :
    onlyDefaultDatasetFS (pyStrip "missing.parquet") = false ∧
    onlyDefaultDatasetFS ("/repo" ++ "/data/" ++ pyStrip "missing.parquet") = false ∧
    (defaultDataPath onlyDefaultDatasetFS none "/repo" (some "missing.parquet") =
      fallbackDataPath none "/repo" ∧
    resolveBacktestData onlyDefaultDatasetFS none "/repo" (some "missing.parquet") =
      (if onlyDefaultDatasetFS (fallbackDataPath none "/repo") = true then
        Except.ok (fallbackDataPath none "/repo")
       else Except.error
        ("Backtest data file not found: " ++ fallbackDataPath none "/repo"))) := by
  have h1 : onlyDefaultDatasetFS (pyStrip "missing.parquet") = false := by decide
  have h2 : onlyDefaultDatasetFS ("/repo" ++ "/data/" ++ pyStrip "missing.parquet") = false := by
    decide
  exact ⟨h1, h2, unresolved_data_source_falls_back onlyDefaultDatasetFS none "/repo"
    "missing.parquet" h1 h2⟩

theorem metricWithinTolerance_total_return (a b : ℚ) :
    metricWithinTolerance "total_return" a b = decide (|a - b| ≤ 1/100) := rfl

theorem metricWithinTolerance_sharpe_ratio (a b : ℚ) :
    metricWithinTolerance "sharpe_ratio" a b = decide (|a - b| ≤ 1/100) := rfl

theorem metricWithinTolerance_max_drawdown (a b : ℚ) :
    metricWithinTolerance "max_drawdown" a b = decide (|a - b| ≤ 1/100) := rfl

/-- C6: the parity comparison passes iff every tracked metric
(total_return, sharpe_ratio, max_drawdown) has absolute difference within
its 0.01 tolerance, and the violations map holds exactly the metrics whose
difference exceeds tolerance, each as an `{a, b, delta, tolerance}`
record, in tracked-metric order. -/
theorem parity_comparison_characterization (a b : MetricMap) :
    ((withinTolerance a b).1 = true ↔
      (|(a "total_return").getD 0 - (b "total_return").getD 0| ≤ 1/100 ∧
       |(a "sharpe_ratio").getD 0 - (b "sharpe_ratio").getD 0| ≤ 1/100 ∧
       |(a "max_drawdown").getD 0 - (b "max_drawdown").getD 0| ≤ 1/100)) ∧
    (withinTolerance a b).2 =
      (if |(a "total_return").getD 0 - (b "total_return").getD 0| ≤ (1:ℚ)/100 then []
       else [("total_return",
        ViolationEntry.metricDelta ((a "total_return").getD 0) ((b "total_return").getD 0)
          (|(a "total_return").getD 0 - (b "total_return").getD 0|) (1/100))]) ++
      (if |(a "sharpe_ratio").getD 0 - (b "sharpe_ratio").getD 0| ≤ (1:ℚ)/100 then []
       else [("sharpe_ratio",
        ViolationEntry.metricDelta ((a "sharpe_ratio").getD 0) ((b "sharpe_ratio").getD 0)
          (|(a "sharpe_ratio").getD 0 - (b "sharpe_ratio").getD 0|) (1/100))]) ++
      (if |(a "max_drawdown").getD 0 - (b "max_drawdown").getD 0| ≤ (1:ℚ)/100 then []
       else [("max_drawdown",
        ViolationEntry.metricDelta ((a "max_drawdown").getD 0) ((b "max_drawdown").getD 0)
          (|(a "max_drawdown").getD 0 - (b "max_drawdown").getD 0|) (1/100))]) := by
  simp only [withinTolerance, PARITY_TOLERANCES, List.foldl_cons, List.foldl_nil,
    metricWithinTolerance_total_return, metricWithinTolerance_sharpe_ratio,
    metricWithinTolerance_max_drawdown]
  by_cases hx : |(a "total_return").getD 0 - (b "total_return").getD 0| ≤ ((100:ℚ))⁻¹ <;>
    by_cases hy : |(a "sharpe_ratio").getD 0 - (b "sharpe_ratio").getD 0| ≤ ((100:ℚ))⁻¹ <;>
      by_cases hz : |(a "max_drawdown").getD 0 - (b "max_drawdown").getD 0| ≤ ((100:ℚ))⁻¹ <;>
        simp [hx, hy, hz, not_le.symm]

end Aurelius
